import Mathlib

/-!
# Verification of the DMK_x3GP031 camera wrapper (theimagingsource.py)

Shallow embedding of the camera-session wrapper. The vendor driver is opaque,
so it is modelled as a record of responses (`Driver`) plus the one piece of
device state the wrapper is specified to track: whether the device is
streaming (`DriverState.streaming`). Every wrapper operation is a pure
function from the driver model, the device state and the session object to an
`Outcome` that records, in order, the driver entry points invoked, the
resulting device and session state, and the error raised (if any). Python
exceptions (UserWarning, AssertionError, NameError) are the `Err` codes;
object mutation persists through an exception, so an `Outcome` carries the
post-mutation state even when `err` is set.
-/

/-- Numpy dtypes that occur: the wrapper only ever deals in uint16 frames. -/
inductive Dtype
  | uint8
  | uint16
deriving DecidableEq, Repr

/-- A caller-supplied numpy output array: shape (rows, cols), dtype, contents. -/
structure Buffer where
  rows : Nat
  cols : Nat
  dtype : Dtype
  data : List Nat
deriving DecidableEq, Repr

/-- A frame as produced by `_snapped_image_as_numpy_array`: a row-major
`height x width` array of 16-bit samples. -/
structure Frame where
  rows : Nat
  cols : Nat
  data : List Nat
deriving DecidableEq, Repr

/-- Exceptions the wrapper can raise. Python raises UserWarning or
AssertionError; the spec gives them taxonomy names, noted per constructor.
`nameErrorSnappedImage` and `nameErrorImageVar` are NameErrors raised by two
references to names that are not in scope (lines 221 and 211 of the source). -/
inductive Err
  | deviceNotFound              -- UserWarning, __init__ line 21
  | deviceOpenFailed            -- AssertionError, __init__ lines 27-28
  | preferredFormatMissing      -- AssertionError, __init__ line 36
  | unsupportedFormatEncoding   -- AssertionError line 48 (spec: UnsupportedFormat)
  | unsupportedFormat (available : List String) -- UserWarning line 53 (spec: UnsupportedFormat)
  | setVideoFormatFailed        -- AssertionError line 57
  | removeOverlayFailed         -- AssertionError line 68
  | setFormatFailed             -- AssertionError line 73
  | formatVerificationFailed    -- AssertionError line 79 (spec: FormatVerificationFailed)
  | imageDescriptionFailed      -- AssertionError lines 92-93
  | badBitDepth                 -- AssertionError line 94
  | badColorFormat              -- AssertionError line 95
  | getAutoPropertyFailed       -- AssertionError lines 106-107 / 113-114
  | badAutoExposureValue        -- AssertionError line 108
  | setAutoPropertyFailed       -- AssertionError lines 111-112
  | autoExposureDisableFailed   -- AssertionError line 115 (spec: AutoExposureDisableFailed)
  | getPropertyRangeFailed      -- AssertionError lines 119-120
  | exposureOutOfRange (minMicroseconds maxMicroseconds : Int)
      -- UserWarning line 126 (spec: ExposureOutOfRange); the code prints both
      -- bounds scaled by 1e-6, i.e. in seconds, before raising
  | setPropertyFailed           -- AssertionError lines 128-129
  | getPropertyFailed           -- AssertionError lines 135-136
  | startLiveFailed             -- AssertionError line 146 (spec: StartLiveFailed)
  | noOutputDestination         -- UserWarning line 169 (spec: NoOutputDestination)
  | snapFailed                  -- AssertionError line 190 (spec: SnapFailed)
  | npTifMissing                -- UserWarning lines 204-208
  | badSaveExtension            -- AssertionError line 209
  | nameErrorImageVar           -- NameError line 211: `image` is not defined
  | nameErrorSnappedImage       -- NameError line 221: bare `_snapped_image_as_numpy_array`
  | triggerUnavailable          -- AssertionError line 244 (spec: TriggerUnsupported)
deriving DecidableEq, Repr

/-- Driver (dll) entry points, recorded in the order the wrapper invokes them. -/
inductive DrvCall
  | getDeviceCount
  | getUniqueName (i : Nat)
  | createGrabber
  | openByName
  | isValid
  | getVideoFormatCount
  | getVideoFormat (i : Nat)
  | setVideoFormat (fmt : String)
  | removeOverlay
  | setFormat (code : Int)
  | getFormat
  | getImageDescription
  | startLive
  | stopLive
  | snapImage (timeoutMilliseconds : Int)
  | getImagePointer
  | getAutoProperty
  | setAutoProperty (v : Int)
  | getPropertyRange
  | setProperty (v : Int)
  | getProperty
  | isTriggerAvailable
  | enableTrigger (b : Bool)
  | softwareTrigger
  | releaseGrabber
deriving DecidableEq, Repr

/-- The one piece of physical device state the wrapper tracks: whether the
device is streaming. `dll.start_live` reporting success means the device is
now streaming; `dll.stop_live` (which returns no status) means it is not;
no other entry point changes it. -/
structure DriverState where
  streaming : Bool
deriving DecidableEq, Repr

/-- The session object (`self`). Fields mirror the attributes assigned by
the Python class; Python attributes do not exist before first assignment, so
a fresh session holds placeholder values that construction overwrites. -/
structure Session where
  name : String
  live : Bool
  video_formats : List String
  width : Nat
  height : Nat
  bit_depth : Nat
  exposure_microseconds : Int
deriving DecidableEq, Repr

/-- Deterministic model of the opaque vendor driver: one field per response
the wrapper consults. `npTifAvailable` models whether the module-level
`import np_tif` succeeded. -/
structure Driver where
  deviceNames : List String
  openOk : Bool
  validOk : Bool
  videoFormats : List String
  setVideoFormatOk : Bool
  removeOverlayOk : Bool
  setFormatOk : Bool
  startLiveOk : Bool
  getFormatVal : Int
  descOk : Bool
  descWidth : Nat
  descHeight : Nat
  descBitDepth : Nat
  descColor : Int
  getAutoOk : Bool
  autoExposure0 : Int
  setAutoOk : Bool
  getAutoOk2 : Bool
  autoExposureAfterDisable : Int
  rangeOk : Bool
  expMin : Int
  expMax : Int
  setPropOk : Bool
  getPropOk : Bool
  exposureReadback : Int
  snapOk : Bool
  rawImageBytes : List Nat
  triggerAvailable : Int
  npTifAvailable : Bool

/-- Result of running one wrapper operation: driver calls issued in order,
final device state, final session state (mutations persist even when an
exception is raised), and the exception if one was raised. -/
structure Outcome where
  calls : List DrvCall
  ds : DriverState
  s : Session
  err : Option Err
deriving DecidableEq, Repr

/- ## Python string helpers (bytes.split() and startswith/endswith) -/

/-- ASCII whitespace, the separators `bytes.split()` (no argument) uses. -/
def isPySpaceChar (c : Char) : Bool :=
  c == ' ' || c == '\t' || c == '\n' || c == '\r' || c == '\x0b' || c == '\x0c'

/-- Worker for `pySplit`: accumulate the current token (reversed) while
scanning; whitespace runs separate tokens and empty tokens are dropped,
exactly as `bytes.split()` with no argument behaves. -/
def splitWsChars : List Char → List Char → List String
  | acc, [] => if acc.isEmpty then [] else [String.mk acc.reverse]
  | acc, c :: cs =>
      if isPySpaceChar c then
        (if acc.isEmpty then [] else [String.mk acc.reverse]) ++ splitWsChars [] cs
      else
        splitWsChars (c :: acc) cs

/-- Python `name.split()`: split on whitespace runs, discarding empties. -/
def pySplit (s : String) : List String :=
  splitWsChars [] s.data

/-- Predicate: `listLeads p s` is true when token list `s` begins with pattern `p`. -/
def listLeads : List Char → List Char → Bool
  | [], _ => true
  | _ :: _, [] => false
  | p :: ps, c :: cs => p == c && listLeads ps cs

/-- Python `s.startswith(p)`. -/
def strStarts (s p : String) : Bool :=
  listLeads p.data s.data

/-- Python `s.endswith(p)`. -/
def strEnds (s p : String) : Bool :=
  listLeads p.data.reverse s.data.reverse

/-- Python `int()` applied to a rational: truncation toward zero. -/
def pyIntOfRat (q : ℚ) : Int :=
  if 0 ≤ q then ⌊q⌋ else ⌈q⌉

/- ## The wrapper operations -/

/-- Model of `start_live` (lines 144-149): assert the driver reports success, then set
`self.live = True`. On driver failure the AssertionError fires before the
flag assignment, so both the flag and (we assume) the device are unchanged. -/
def start_live (d : Driver) (ds : DriverState) (s : Session) : Outcome :=
  if d.startLiveOk then
    ⟨[DrvCall.startLive], ⟨true⟩, { s with live := true }, none⟩
  else
    ⟨[DrvCall.startLive], ds, s, some Err.startLiveFailed⟩

/-- Model of `stop_live` (lines 151-156): `dll.stop_live` has no return status
(restype None), so the `assert ... == None` always passes and
`self.live = False` is always reached. -/
def stop_live (_d : Driver) (_ds : DriverState) (s : Session) : Outcome :=
  ⟨[DrvCall.stopLive], ⟨false⟩, { s with live := false }, none⟩

/-- Model of `get_image_information` (lines 86-101): query the image description,
assert bit depth 16 and color code 4 (Y16), then cache width, height and
bit depth on the session. The asserts precede the attribute assignments. -/
def get_image_information (d : Driver) (ds : DriverState) (s : Session) : Outcome :=
  let c1 := [DrvCall.getImageDescription]
  if d.descOk then
    if d.descBitDepth = 16 then
      if d.descColor = 4 then
        ⟨c1, ds, { s with width := d.descWidth, height := d.descHeight,
                          bit_depth := d.descBitDepth }, none⟩
      else ⟨c1, ds, s, some Err.badColorFormat⟩
    else ⟨c1, ds, s, some Err.badBitDepth⟩
  else ⟨c1, ds, s, some Err.imageDescriptionFailed⟩

/-- The sink-format code for Y16 (line 72). -/
def Y16_mode : Int := 4

/-- Model of `set_video_format` (lines 43-84). Token checks first (no driver contact):
the `Y16` prefix assert, then membership in the enumerated format list (the
failure message lists the available Y16-prefixed formats). On success:
set video format, remove overlay, stop live if live, set sink format to
`Y16_mode`, one start-live/stop-live round trip, verify `get_format`
returns `Y16_mode`, then `get_image_information`. -/
def set_video_format (d : Driver) (ds : DriverState) (s : Session)
    (video_format : String) : Outcome :=
  if strStarts video_format "Y16" then
    if video_format ∈ s.video_formats then
      let c1 := [DrvCall.setVideoFormat video_format]
      if d.setVideoFormatOk then
        let c2 := c1 ++ [DrvCall.removeOverlay]
        if d.removeOverlayOk then
          let r1 : Outcome :=
            if s.live then stop_live d ds s else ⟨[], ds, s, none⟩
          let c3 := c2 ++ r1.calls ++ [DrvCall.setFormat Y16_mode]
          if d.setFormatOk then
            let r2 := start_live d r1.ds r1.s
            let c4 := c3 ++ r2.calls
            match r2.err with
            | some e => ⟨c4, r2.ds, r2.s, some e⟩
            | none =>
              let r3 := stop_live d r2.ds r2.s
              let c5 := c4 ++ r3.calls ++ [DrvCall.getFormat]
              if d.getFormatVal = Y16_mode then
                let r4 := get_image_information d r3.ds r3.s
                ⟨c5 ++ r4.calls, r4.ds, r4.s, r4.err⟩
              else ⟨c5, r3.ds, r3.s, some Err.formatVerificationFailed⟩
          else ⟨c3, r1.ds, r1.s, some Err.setFormatFailed⟩
        else ⟨c2, ds, s, some Err.removeOverlayFailed⟩
      else ⟨c1, ds, s, some Err.setVideoFormatFailed⟩
    else
      ⟨[], ds, s,
        some (Err.unsupportedFormat
          (s.video_formats.filter (fun f => strStarts f "Y16")))⟩
  else ⟨[], ds, s, some Err.unsupportedFormatEncoding⟩

/-- Model of `set_exposure` (lines 103-131), including the trailing `get_exposure`
read-back (lines 133-142): read the auto-exposure flag (assert it is 0 or 1),
disable it if set (and assert the re-read confirms 0), query the allowed
range, reject a requested value not strictly inside `(min, max)` — the code
prints both bounds in seconds, then raises — and otherwise write the
property and re-read it into `self.exposure_microseconds`. -/
def set_exposure (d : Driver) (ds : DriverState) (s : Session)
    (exposure_seconds : ℚ) : Outcome :=
  let c1 := [DrvCall.getAutoProperty]
  if d.getAutoOk then
    if d.autoExposure0 = 0 ∨ d.autoExposure0 = 1 then
      let dis : List DrvCall × Option Err :=
        if d.autoExposure0 = 1 then
          if d.setAutoOk then
            if d.getAutoOk2 then
              if d.autoExposureAfterDisable = 0 then
                ([DrvCall.setAutoProperty 0, DrvCall.getAutoProperty], none)
              else ([DrvCall.setAutoProperty 0, DrvCall.getAutoProperty],
                    some Err.autoExposureDisableFailed)
            else ([DrvCall.setAutoProperty 0, DrvCall.getAutoProperty],
                  some Err.getAutoPropertyFailed)
          else ([DrvCall.setAutoProperty 0], some Err.setAutoPropertyFailed)
        else ([], none)
      match dis.2 with
      | some e => ⟨c1 ++ dis.1, ds, s, some e⟩
      | none =>
        let c2 := c1 ++ dis.1 ++ [DrvCall.getPropertyRange]
        if d.rangeOk then
          let exposure_microseconds := pyIntOfRat (exposure_seconds * 1000000)
          if d.expMin < exposure_microseconds ∧ exposure_microseconds < d.expMax then
            let c3 := c2 ++ [DrvCall.setProperty exposure_microseconds]
            if d.setPropOk then
              let c4 := c3 ++ [DrvCall.getProperty]
              if d.getPropOk then
                ⟨c4, ds, { s with exposure_microseconds := d.exposureReadback }, none⟩
              else ⟨c4, ds, s, some Err.getPropertyFailed⟩
            else ⟨c3, ds, s, some Err.setPropertyFailed⟩
          else ⟨c2, ds, s, some (Err.exposureOutOfRange d.expMin d.expMax)⟩
        else ⟨c2, ds, s, some Err.getPropertyRangeFailed⟩
    else ⟨c1, ds, s, some Err.badAutoExposureValue⟩
  else ⟨c1, ds, s, some Err.getAutoPropertyFailed⟩

/-- Pair up consecutive bytes little-endian, modelling
`np.ctypeslib.as_array(..., (nbytes,)).view(dtype=np.uint16)` on the
x64 (little-endian) platform the module targets. -/
def u16view : List Nat → List Nat
  | b0 :: b1 :: rest => (b0 + 256 * b1) :: u16view rest
  | _ => []

/-- Model of `_snapped_image_as_numpy_array` (lines 230-240): fetch the raw frame
pointer, view `width * height * (bit_depth // 8)` bytes as uint16, reshape
to `(height, width)` row-major, and right-shift every sample by 4 bits
(for a uint16 sample that is division by 16). -/
def snapped_image_as_numpy_array (d : Driver) (s : Session) : List DrvCall × Frame :=
  let bytes_per_pixel := s.bit_depth / 8
  let bytes_per_image := s.width * s.height * bytes_per_pixel
  let raw := d.rawImageBytes.take bytes_per_image
  ([DrvCall.getImagePointer],
   { rows := s.height, cols := s.width,
     data := (u16view raw).map (fun v => v / 16) })

/-- Result of the copy helper: driver calls, exception, Python return value,
and the contents written into the caller buffer (none = untouched). -/
structure CopyOutcome where
  calls : List DrvCall
  err : Option Err
  ret : Option Frame
  written : Option Frame
deriving DecidableEq, Repr

/-- Model of `_copy_snapped_image_to_numpy_array` (lines 217-228). Its first statement
(line 221) reads `image = _snapped_image_as_numpy_array()` — a bare global
name; the function is only defined as the method
`self._snapped_image_as_numpy_array`, and no module-level binding of that
name exists. Every invocation therefore raises NameError before the
shape/dtype asserts or the copy on lines 225-227 can run, for any argument. -/
def copy_snapped_image_to_numpy_array (_d : Driver) (_s : Session)
    (_output_array : Option Buffer) (_verbose : Bool) : CopyOutcome :=
  ⟨[], some Err.nameErrorSnappedImage, none, none⟩

/-- Model of `_save_snapped_image_as_tif` (lines 200-215): require np_tif, require a
`.tif` filename, and note that the verbose print on line 211 references a
name `image` that is bound nowhere in that scope, so `verbose=True` raises
NameError before the file is written; with `verbose=False` the frame is
fetched (one `get_image_pointer` call) and handed to the encoder. -/
def save_snapped_image_as_tif (d : Driver) (s : Session)
    (filename : String) (verbose : Bool) : List DrvCall × Option Err :=
  if d.npTifAvailable then
    if strEnds filename ".tif" then
      if verbose then
        ([], some Err.nameErrorImageVar)
      else
        ((snapped_image_as_numpy_array d s).1, none)
    else ([], some Err.badSaveExtension)
  else ([], some Err.npTifMissing)

/-- Result of `snap`: an `Outcome` plus the Python return value (`ret`), the
argument of each `_copy_snapped_image_to_numpy_array` invocation
(`helperArgs`), and what was written into the caller buffer. -/
structure SnapOutcome where
  calls : List DrvCall
  ds : DriverState
  s : Session
  err : Option Err
  ret : Option Frame
  helperArgs : List (Option Buffer)
  bufferWritten : Option Frame
deriving DecidableEq, Repr

/-- Model of `snap` (lines 158-198): fail with the no-destination UserWarning before
any driver call if neither `filename` nor `output_array` is given; otherwise
go live if not already live, snap with the timeout (`None` encoded as -1),
return to the entry live state, then run the file and buffer side effects
in that order. The final Python statement is `return None`. -/
def snap (d : Driver) (ds : DriverState) (s : Session)
    (filename : Option String) (timeout_milliseconds : Option Int)
    (verbose : Bool) (output_array : Option Buffer) : SnapOutcome :=
  if filename = none ∧ output_array = none then
    ⟨[], ds, s, some Err.noOutputDestination, none, [], none⟩
  else
    let already_live := s.live
    let r1 : Outcome := if s.live then ⟨[], ds, s, none⟩ else start_live d ds s
    match r1.err with
    | some e => ⟨r1.calls, r1.ds, r1.s, some e, none, [], none⟩
    | none =>
      let t : Int := match timeout_milliseconds with | none => -1 | some x => x
      let c2 := r1.calls ++ [DrvCall.snapImage t]
      if d.snapOk then
        let r2 : Outcome :=
          if already_live then ⟨[], r1.ds, r1.s, none⟩ else stop_live d r1.ds r1.s
        let c3 := c2 ++ r2.calls
        let saveRes : List DrvCall × Option Err :=
          match filename with
          | none => ([], none)
          | some fn => save_snapped_image_as_tif d r2.s fn verbose
        let c4 := c3 ++ saveRes.1
        match saveRes.2 with
        | some e => ⟨c4, r2.ds, r2.s, some e, none, [], none⟩
        | none =>
          match output_array with
          | none => ⟨c4, r2.ds, r2.s, none, none, [], none⟩
          | some arr =>
            let co := copy_snapped_image_to_numpy_array d r2.s (some arr) verbose
            ⟨c4 ++ co.calls, r2.ds, r2.s, co.err, none, [some arr], co.written⟩
      else ⟨c2, r1.ds, r1.s, some Err.snapFailed, none, [], none⟩

/-- Model of `enable_trigger` (lines 242-248): assert hardware triggering is
available, then issue the enable call, whose result is only printed
(documented driver defect: no reliable success code). -/
def enable_trigger (d : Driver) (ds : DriverState) (s : Session)
    (enable : Bool) : Outcome :=
  if d.triggerAvailable = 1 then
    ⟨[DrvCall.isTriggerAvailable, DrvCall.enableTrigger enable], ds, s, none⟩
  else ⟨[DrvCall.isTriggerAvailable], ds, s, some Err.triggerUnavailable⟩

/-- Model of `close` (lines 255-260): stop live first when the flag is set, then
release the grabber handle unconditionally. No closed flag is recorded and
no operation checks one. -/
def close (d : Driver) (ds : DriverState) (s : Session) : Outcome :=
  let r : Outcome := if s.live then stop_live d ds s else ⟨[], ds, s, none⟩
  ⟨r.calls ++ [DrvCall.releaseGrabber], r.ds, r.s, none⟩

/-- The device-name predicate from `__init__` lines 14-16: the name splits
into exactly three whitespace tokens, the first is `DMK`, the second is one
of the two whitelisted models; the third token is never inspected. -/
def isDMKx3GP031Name (name : String) : Bool :=
  (pySplit name).length == 3 &&
  (pySplit name).headD "" == "DMK" &&
  ((pySplit name).getD 1 "" == "33GP031" || (pySplit name).getD 1 "" == "23GP031")

/-- The enumeration loop of `__init__` lines 11-19: call
`get_unique_name_from_list` for successive indices, stopping at the first
name satisfying `isDMKx3GP031Name`; returns the calls made and the match. -/
def findCamera : List String → Nat → List DrvCall × Option String
  | [], _ => ([], none)
  | n :: rest, i =>
      if isDMKx3GP031Name n then ([DrvCall.getUniqueName i], some n)
      else
        let r := findCamera rest (i + 1)
        (DrvCall.getUniqueName i :: r.1, r.2)

/-- A fresh session before `__init__` assigns anything (Python attributes do
not exist yet; these placeholders are all overwritten on the paths that read
them). -/
def emptySession : Session :=
  ⟨"", false, [], 0, 0, 0, 0⟩

/-- The preferred default format (line 36 and the default of line 43). -/
def preferredFormat : String := "Y16 (2592x1944)"

/-- Model of `__init__` (lines 9-41): enumerate devices and select the first matching
name (UserWarning `DeviceNotFound` if none, before any grabber is created or
opened); create and open the grabber and check validity; enumerate the
supported video formats; assert the preferred format is present; then
`set_video_format` (default token), `set_exposure(0.1)` and
`enable_trigger(False)`. -/
def initSession (d : Driver) (ds : DriverState) : Outcome :=
  let found := findCamera d.deviceNames 0
  let calls0 := DrvCall.getDeviceCount :: found.1
  match found.2 with
  | none => ⟨calls0, ds, emptySession, some Err.deviceNotFound⟩
  | some nm =>
    let s0 : Session := { emptySession with name := nm, live := false }
    let calls1 := calls0 ++ [DrvCall.createGrabber, DrvCall.openByName]
    if d.openOk then
      let calls2 := calls1 ++ [DrvCall.isValid]
      if d.validOk then
        let fmtCalls := DrvCall.getVideoFormatCount ::
          (List.range d.videoFormats.length).map DrvCall.getVideoFormat
        let s1 := { s0 with video_formats := d.videoFormats }
        let calls3 := calls2 ++ fmtCalls
        if preferredFormat ∈ d.videoFormats then
          let r1 := set_video_format d ds s1 preferredFormat
          let calls4 := calls3 ++ r1.calls
          match r1.err with
          | some e => ⟨calls4, r1.ds, r1.s, some e⟩
          | none =>
            let r2 := set_exposure d r1.ds r1.s (1 / 10)
            let calls5 := calls4 ++ r2.calls
            match r2.err with
            | some e => ⟨calls5, r2.ds, r2.s, some e⟩
            | none =>
              let r3 := enable_trigger d r2.ds r2.s false
              ⟨calls5 ++ r3.calls, r3.ds, r3.s, r3.err⟩
        else ⟨calls3, ds, s1, some Err.preferredFormatMissing⟩
      else ⟨calls2, ds, s0, some Err.deviceOpenFailed⟩
    else ⟨calls1, ds, s0, some Err.deviceOpenFailed⟩

/- ## Operation sequences (for the live-flag invariant) -/

/-- One caller-visible acquisition operation. -/
inductive CamOp
  | startOp
  | stopOp
  | snapOp (filename : Option String) (timeout : Option Int)
      (verbose : Bool) (out : Option Buffer)

/-- Run one operation (discarding snap's extra bookkeeping). -/
def runOp (d : Driver) (ds : DriverState) (s : Session) : CamOp → Outcome
  | .startOp => start_live d ds s
  | .stopOp => stop_live d ds s
  | .snapOp fn t v out =>
      let r := snap d ds s fn t v out
      ⟨r.calls, r.ds, r.s, r.err⟩

/-- Run a sequence of operations, stopping at the first exception (the state
reached so far is preserved, as Python mutation persists through a raise). -/
def runOps (d : Driver) (ds : DriverState) (s : Session) : List CamOp → Outcome
  | [] => ⟨[], ds, s, none⟩
  | op :: rest =>
      let r := runOp d ds s op
      match r.err with
      | some e => ⟨r.calls, r.ds, r.s, some e⟩
      | none =>
          let r2 := runOps d r.ds r.s rest
          ⟨r.calls ++ r2.calls, r2.ds, r2.s, r2.err⟩

/- ## Sample data for witnesses and counterexamples -/

/-- A driver model on which every operation succeeds: two enumerated devices
(the second matches), three supported formats, a 2x2 Y16 image whose raw
bytes are 0x1234, 0x0FFF, 0x0000, 0x0010, exposure range 10..1000000 us. -/
def sampleDriver : Driver :=
  { deviceNames := ["ABC 123", "DMK 33GP031 12345"]
    openOk := true
    validOk := true
    videoFormats := ["Y16 (2592x1944)", "Y16 (1024x768)", "RGB24 (640x480)"]
    setVideoFormatOk := true
    removeOverlayOk := true
    setFormatOk := true
    startLiveOk := true
    getFormatVal := 4
    descOk := true
    descWidth := 2
    descHeight := 2
    descBitDepth := 16
    descColor := 4
    getAutoOk := true
    autoExposure0 := 1
    setAutoOk := true
    getAutoOk2 := true
    autoExposureAfterDisable := 0
    rangeOk := true
    expMin := 10
    expMax := 1000000
    setPropOk := true
    getPropOk := true
    exposureReadback := 100000
    snapOk := true
    rawImageBytes := [52, 18, 255, 15, 0, 0, 16, 0]
    triggerAvailable := 1
    npTifAvailable := true }

/-- The session state produced by constructing against `sampleDriver`. -/
def sampleSession : Session :=
  { name := "DMK 33GP031 12345"
    live := false
    video_formats := ["Y16 (2592x1944)", "Y16 (1024x768)", "RGB24 (640x480)"]
    width := 2
    height := 2
    bit_depth := 16
    exposure_microseconds := 100000 }

/-- A driver whose enumeration reports no matching camera name. -/
def noMatchDriver : Driver :=
  { sampleDriver with deviceNames := ["ABC 123", "DMK wrongmodel", "DFK 33GP031 99"] }

/-- A driver whose sink-format read-back disagrees with the requested code. -/
def badFormatDriver : Driver :=
  { sampleDriver with getFormatVal := 0 }

set_option maxHeartbeats 1000000

/- ## Helper lemmas -/

/-- On every path through `snap`, the tracked flag and the device streaming
state move together: they are equal afterwards whenever they were equal
before, even when an exception is raised partway. -/
theorem snap_live_inv (d : Driver) (ds : DriverState) (s : Session)
    (fn : Option String) (t : Option Int) (v : Bool) (out : Option Buffer)
    (h : s.live = ds.streaming) :
    (snap d ds s fn t v out).s.live = (snap d ds s fn t v out).ds.streaming := by
  cases hl : s.live <;> cases hso : d.startLiveOk <;> cases hsn : d.snapOk <;>
    unfold snap <;>
    simp [start_live, stop_live, hl, hso, hsn] <;>
    (repeat' split) <;> simp_all

/-- A completed `snap` restores the live flag to its value at entry. -/
theorem snap_ok_live (d : Driver) (ds : DriverState) (s : Session)
    (fn : Option String) (t : Option Int) (v : Bool) (out : Option Buffer)
    (h : (snap d ds s fn t v out).err = none) :
    (snap d ds s fn t v out).s.live = s.live := by
  by_cases hg : fn = none ∧ out = none
  · unfold snap at h
    simp [hg] at h
  · cases hl : s.live <;> cases hso : d.startLiveOk <;> cases hsn : d.snapOk <;>
      unfold snap at h ⊢ <;>
      simp [start_live, stop_live, hl, hso, hsn, hg] at h ⊢ <;>
      (repeat' split at h) <;> simp_all

/-- One operation preserves flag/streaming agreement. -/
theorem runOp_inv (d : Driver) (ds : DriverState) (s : Session) (op : CamOp)
    (h : s.live = ds.streaming) :
    (runOp d ds s op).s.live = (runOp d ds s op).ds.streaming := by
  cases op with
  | startOp => cases hso : d.startLiveOk <;> simp [runOp, start_live, hso, h]
  | stopOp => simp [runOp, stop_live]
  | snapOp fn t v out => simpa [runOp] using snap_live_inv d ds s fn t v out h

/-- Any operation sequence preserves flag/streaming agreement. -/
theorem runOps_inv (d : Driver) (ops : List CamOp) :
    ∀ ds s, s.live = ds.streaming →
      (runOps d ds s ops).s.live = (runOps d ds s ops).ds.streaming := by
  induction ops with
  | nil => intro ds s h; simpa [runOps] using h
  | cons op rest ih =>
      intro ds s h
      have h1 := runOp_inv d ds s op h
      unfold runOps
      cases herr : (runOp d ds s op).err with
      | some e => simpa [herr] using h1
      | none => simpa [herr] using ih _ _ h1

/-- Success characterization of `set_video_format`: when every driver step
reports success, the outcome is exactly the source's call sequence and the
cached image geometry. -/
theorem set_video_format_success (d : Driver) (ds : DriverState) (s : Session)
    (fmt : String)
    (hp : strStarts fmt "Y16" = true) (hm : fmt ∈ s.video_formats)
    (h1 : d.setVideoFormatOk = true) (h2 : d.removeOverlayOk = true)
    (h3 : d.setFormatOk = true) (h4 : d.startLiveOk = true)
    (h5 : d.getFormatVal = Y16_mode)
    (h6 : d.descOk = true) (h7 : d.descBitDepth = 16) (h8 : d.descColor = 4) :
    set_video_format d ds s fmt =
      ⟨[DrvCall.setVideoFormat fmt, DrvCall.removeOverlay]
          ++ (if s.live then [DrvCall.stopLive] else [])
          ++ [DrvCall.setFormat Y16_mode, DrvCall.startLive, DrvCall.stopLive,
              DrvCall.getFormat, DrvCall.getImageDescription],
        ⟨false⟩,
        { s with live := false, width := d.descWidth, height := d.descHeight,
                 bit_depth := d.descBitDepth },
        none⟩ := by
  cases hl : s.live <;>
    simp [set_video_format, start_live, stop_live, get_image_information,
          hp, hm, h1, h2, h3, h4, h5, h6, h7, h8, hl]

/-- When the sink-format read-back disagrees with the requested code, the
AssertionError on the `get_format` check fires. -/
theorem set_video_format_verification_fails (d : Driver) (ds : DriverState)
    (s : Session) (fmt : String)
    (hp : strStarts fmt "Y16" = true) (hm : fmt ∈ s.video_formats)
    (h1 : d.setVideoFormatOk = true) (h2 : d.removeOverlayOk = true)
    (h3 : d.setFormatOk = true) (h4 : d.startLiveOk = true)
    (h5 : d.getFormatVal ≠ Y16_mode) :
    (set_video_format d ds s fmt).err = some Err.formatVerificationFailed := by
  cases hl : s.live <;>
    simp [set_video_format, start_live, stop_live,
          hp, hm, h1, h2, h3, h4, h5, hl]

/-- The operation `set_video_format` never modifies the session name attribute. -/
theorem set_video_format_name (d : Driver) (ds : DriverState) (s : Session)
    (fmt : String) :
    (set_video_format d ds s fmt).s.name = s.name := by
  cases hl : s.live <;> cases hso : d.startLiveOk <;>
    unfold set_video_format <;>
    simp [start_live, stop_live, get_image_information, hl, hso] <;>
    (repeat' split) <;> simp_all

/-- The operation `set_exposure` never modifies the session name attribute. -/
theorem set_exposure_name (d : Driver) (ds : DriverState) (s : Session)
    (q : Rat) :
    (set_exposure d ds s q).s.name = s.name := by
  unfold set_exposure
  by_cases hr : d.expMin < pyIntOfRat (q * 1000000)
      ∧ pyIntOfRat (q * 1000000) < d.expMax <;>
    simp [hr] <;> (repeat' split) <;> simp_all

/-- The operation `enable_trigger` never modifies the session. -/
theorem enable_trigger_name (d : Driver) (ds : DriverState) (s : Session)
    (b : Bool) :
    (enable_trigger d ds s b).s.name = s.name := by
  unfold enable_trigger
  (repeat' split) <;> simp_all

/-- The enumeration loop returns the first matching device name. -/
theorem findCamera_snd (names : List String) (i : Nat) :
    (findCamera names i).2 = names.find? isDMKx3GP031Name := by
  induction names generalizing i with
  | nil => simp [findCamera, List.find?]
  | cons n rest ih =>
      by_cases hn : isDMKx3GP031Name n <;>
        simp [findCamera, List.find?, hn, ih]

/-- The enumeration loop only ever calls `get_unique_name_from_list`. -/
theorem findCamera_calls (names : List String) (i : Nat) :
    ∀ c ∈ (findCamera names i).1, ∃ j, c = DrvCall.getUniqueName j := by
  induction names generalizing i with
  | nil => simp [findCamera]
  | cons n rest ih =>
      by_cases hn : isDMKx3GP031Name n <;>
        simp [findCamera, hn] <;> exact fun c hc => ih (i + 1) c hc

/- ## Claim theorems -/

/-- Claim C1 (code bug). The claim says `snap` into a caller buffer of
matching shape/dtype fills it with the right-shifted driver samples, and a
mismatched buffer fails with OutputBufferMismatch before any write. In the
code, line 221 of `_copy_snapped_image_to_numpy_array` reads
`image = _snapped_image_as_numpy_array()` without `self.`, a name that does
not exist at module scope, so every snap-into-buffer raises NameError first:
here a shape/dtype-matching 2x2 uint16 buffer produces the NameError with
nothing written, and a mismatched 3x3 uint8 buffer produces the same
NameError rather than a shape-mismatch error. -/
theorem snap_into_buffer_hits_missing_name :
    ((snap sampleDriver ⟨false⟩ sampleSession none none false
        (some ⟨2, 2, Dtype.uint16, [0, 0, 0, 0]⟩)).err
      = some Err.nameErrorSnappedImage
    ∧ (snap sampleDriver ⟨false⟩ sampleSession none none false
        (some ⟨2, 2, Dtype.uint16, [0, 0, 0, 0]⟩)).bufferWritten = none)
    ∧ (snap sampleDriver ⟨false⟩ sampleSession none none false
        (some ⟨3, 3, Dtype.uint8, [0]⟩)).err
      = some Err.nameErrorSnappedImage := by
  decide

/-- Claim C2. After any sequence of start_live / stop_live / snap calls
starting from agreement, the tracked `live` flag equals the device streaming
state; moreover every completed start_live leaves the flag true, every
stop_live leaves it false, and every completed snap leaves it at its entry
value (a stopped session goes live, snaps, and stops again automatically). -/
theorem live_flag_tracks_driver_streaming (d : Driver) (ds : DriverState)
    (s : Session) (ops : List CamOp) (h : s.live = ds.streaming) :
    ((runOps d ds s ops).s.live = (runOps d ds s ops).ds.streaming)
    ∧ (∀ ds2 s2, (start_live d ds2 s2).err = none →
        (start_live d ds2 s2).s.live = true)
    ∧ (∀ ds2 s2, (stop_live d ds2 s2).s.live = false)
    ∧ (∀ ds2 s2 fn t v out, (snap d ds2 s2 fn t v out).err = none →
        (snap d ds2 s2 fn t v out).s.live = s2.live) := by
  refine ⟨runOps_inv d ops ds s h, ?_, ?_, ?_⟩
  · intro ds2 s2 h2
    cases hso : d.startLiveOk <;> simp [start_live, hso] at h2 ⊢
  · intro ds2 s2
    simp [stop_live]
  · intro ds2 s2 fn t v out h2
    exact snap_ok_live d ds2 s2 fn t v out h2

/-- Witness for C2 at a concrete run: start, snap to file, stop. -/
theorem live_flag_tracks_driver_streaming_witness :
    (runOps sampleDriver ⟨false⟩ sampleSession
        [CamOp.startOp, CamOp.snapOp (some "x.tif") none false none,
         CamOp.stopOp]).s.live
      = (runOps sampleDriver ⟨false⟩ sampleSession
        [CamOp.startOp, CamOp.snapOp (some "x.tif") none false none,
         CamOp.stopOp]).ds.streaming :=
  (live_flag_tracks_driver_streaming sampleDriver ⟨false⟩ sampleSession
    [CamOp.startOp, CamOp.snapOp (some "x.tif") none false none,
     CamOp.stopOp] rfl).1

/-- Claim C3. `snap` with neither a filename nor an output array raises the
no-destination UserWarning before any driver call: the call list is empty
and the device and session state are returned untouched. -/
theorem snap_without_destination_no_driver_calls (d : Driver)
    (ds : DriverState) (s : Session) (t : Option Int) (v : Bool) :
    snap d ds s none t v none =
      ⟨[], ds, s, some Err.noOutputDestination, none, [], none⟩ :=
  rfl

/-- Claim C4, counterexample. The claim says every operation invoked after
`close()` fails with SessionClosedError; the code maintains no closed flag
and checks none, so here `start_live` invoked after closing a live session
completes with no error at all. -/
theorem post_close_start_live_not_rejected :
    (start_live sampleDriver
        (close sampleDriver ⟨true⟩ { sampleSession with live := true }).ds
        (close sampleDriver ⟨true⟩ { sampleSession with live := true }).s).err
      = none := by
  decide

/-- Claim C4, amended. `close()` on a live session issues the stop-live call
before releasing the grabber handle, the handle is released unconditionally,
and `close` itself raises nothing; but no closed-session check exists, so an
operation invoked afterwards is passed to the driver and completes or fails
exactly as the driver dictates (never with a closed-session error). -/
theorem close_stop_order_and_no_closed_check (d : Driver) (ds : DriverState)
    (s : Session) :
    (close d ds s).calls
        = (if s.live then [DrvCall.stopLive] else []) ++ [DrvCall.releaseGrabber]
    ∧ (close d ds s).err = none
    ∧ ((start_live d (close d ds s).ds (close d ds s).s).err = none
        ∨ (start_live d (close d ds s).ds (close d ds s).s).err
            = some Err.startLiveFailed) := by
  cases hl : s.live <;> cases hso : d.startLiveOk <;>
    simp [close, stop_live, start_live, hl, hso]

/-- Claim C5. A format token without the `Y16` prefix fails on the prefix
assert with no driver call at all; a `Y16`-prefixed token absent from the
enumerated set fails with the UserWarning that carries the supported formats
sharing the `Y16` prefix, again with no driver call. -/
theorem set_video_format_rejects_bad_tokens (d : Driver) (ds : DriverState)
    (s : Session) (fmt : String) :
    (strStarts fmt "Y16" = false →
      (set_video_format d ds s fmt).err = some Err.unsupportedFormatEncoding
      ∧ (set_video_format d ds s fmt).calls = [])
    ∧ (strStarts fmt "Y16" = true → fmt ∉ s.video_formats →
      (set_video_format d ds s fmt).err
          = some (Err.unsupportedFormat
              (s.video_formats.filter (fun f => strStarts f "Y16")))
      ∧ (set_video_format d ds s fmt).calls = []) := by
  constructor
  · intro hp
    simp [set_video_format, hp]
  · intro hp hm
    simp [set_video_format, hp, hm]

/-- Witness for C5: a non-Y16 token (which is even in the enumerated set)
and a Y16 token absent from the set, on the sample session. -/
theorem set_video_format_rejects_bad_tokens_witness :
    ((set_video_format sampleDriver ⟨false⟩ sampleSession "RGB24 (640x480)").err
        = some Err.unsupportedFormatEncoding
    ∧ (set_video_format sampleDriver ⟨false⟩ sampleSession "RGB24 (640x480)").calls = [])
    ∧ ((set_video_format sampleDriver ⟨false⟩ sampleSession "Y16 (9x9)").err
        = some (Err.unsupportedFormat ["Y16 (2592x1944)", "Y16 (1024x768)"])
    ∧ (set_video_format sampleDriver ⟨false⟩ sampleSession "Y16 (9x9)").calls = []) := by
  constructor
  · exact (set_video_format_rejects_bad_tokens sampleDriver ⟨false⟩
      sampleSession "RGB24 (640x480)").1 (by decide)
  · have h := (set_video_format_rejects_bad_tokens sampleDriver ⟨false⟩
      sampleSession "Y16 (9x9)").2 (by decide) (by decide)
    exact ⟨by rw [h.1]; decide, h.2⟩

/-- Claim C6. When the requested exposure, converted to microseconds with
truncation toward zero, is at or below the driver minimum or at or above the
driver maximum, `set_exposure` raises the out-of-range UserWarning carrying
both driver bounds (the code prints them scaled to seconds before raising),
the driver exposure property is never written (no `set_property` call
occurs), and the session — including the cached exposure fields — and the
device state are returned unchanged. The hypotheses state that the
auto-exposure preamble succeeds, which the claim presupposes. -/
theorem set_exposure_out_of_range_no_write (d : Driver) (ds : DriverState)
    (s : Session) (q : Rat)
    (h1 : d.getAutoOk = true)
    (h2 : d.autoExposure0 = 0 ∨ d.autoExposure0 = 1)
    (h3 : d.autoExposure0 = 1 →
      d.setAutoOk = true ∧ d.getAutoOk2 = true ∧ d.autoExposureAfterDisable = 0)
    (h4 : d.rangeOk = true)
    (h5 : pyIntOfRat (q * 1000000) ≤ d.expMin
        ∨ d.expMax ≤ pyIntOfRat (q * 1000000)) :
    (set_exposure d ds s q).err = some (Err.exposureOutOfRange d.expMin d.expMax)
    ∧ (set_exposure d ds s q).s = s
    ∧ (set_exposure d ds s q).ds = ds
    ∧ ∀ v, DrvCall.setProperty v ∉ (set_exposure d ds s q).calls := by
  have hrange : ¬ (d.expMin < pyIntOfRat (q * 1000000)
      ∧ pyIntOfRat (q * 1000000) < d.expMax) := by omega
  rcases h2 with h2 | h2
  · simp [set_exposure, h1, h2, h4, hrange]
  · obtain ⟨ha, hb, hc⟩ := h3 h2
    simp [set_exposure, h1, h2, h4, ha, hb, hc, hrange]

/-- Witness for C6: requesting 100 s when the driver maximum is 1 s. -/
theorem set_exposure_out_of_range_no_write_witness :
    (set_exposure sampleDriver ⟨false⟩ sampleSession 100).err
        = some (Err.exposureOutOfRange 10 1000000)
    ∧ (set_exposure sampleDriver ⟨false⟩ sampleSession 100).s = sampleSession
    ∧ DrvCall.setProperty 100000000
        ∉ (set_exposure sampleDriver ⟨false⟩ sampleSession 100).calls := by
  have h := set_exposure_out_of_range_no_write sampleDriver ⟨false⟩
    sampleSession 100 rfl (Or.inr rfl) (fun _ => ⟨rfl, rfl, rfl⟩) rfl
    (Or.inr (by norm_num [pyIntOfRat, sampleDriver]))
  exact ⟨h.1, h.2.1, h.2.2.2 100000000⟩

/-- Claim C7. On a successful `set_video_format` the driver operations occur
in exactly this order: set video format, remove overlay, stop live if the
session was live, set sink format to the Y16 code 4, a start-live/stop-live
round trip, read back the sink format, query the image description; the
negotiated width, height and bit depth are cached, with bit depth 16 and
color code 4 enforced by the trailing asserts (wrong read-back gives the
format-verification failure; wrong bit depth or color give their asserts). -/
theorem set_video_format_driver_call_order (d : Driver) (ds : DriverState)
    (s : Session) (fmt : String)
    (hp : strStarts fmt "Y16" = true) (hm : fmt ∈ s.video_formats)
    (h1 : d.setVideoFormatOk = true) (h2 : d.removeOverlayOk = true)
    (h3 : d.setFormatOk = true) (h4 : d.startLiveOk = true) :
    (d.getFormatVal = Y16_mode → d.descOk = true → d.descBitDepth = 16 →
      d.descColor = 4 →
      (set_video_format d ds s fmt).err = none
      ∧ (set_video_format d ds s fmt).calls
          = [DrvCall.setVideoFormat fmt, DrvCall.removeOverlay]
            ++ (if s.live then [DrvCall.stopLive] else [])
            ++ [DrvCall.setFormat Y16_mode, DrvCall.startLive, DrvCall.stopLive,
                DrvCall.getFormat, DrvCall.getImageDescription]
      ∧ (set_video_format d ds s fmt).s.width = d.descWidth
      ∧ (set_video_format d ds s fmt).s.height = d.descHeight
      ∧ (set_video_format d ds s fmt).s.bit_depth = 16)
    ∧ (d.getFormatVal ≠ Y16_mode →
      (set_video_format d ds s fmt).err = some Err.formatVerificationFailed)
    ∧ (d.getFormatVal = Y16_mode → d.descOk = true → d.descBitDepth ≠ 16 →
      (set_video_format d ds s fmt).err = some Err.badBitDepth)
    ∧ (d.getFormatVal = Y16_mode → d.descOk = true → d.descBitDepth = 16 →
      d.descColor ≠ 4 →
      (set_video_format d ds s fmt).err = some Err.badColorFormat) := by
  refine ⟨?_, ?_, ?_, ?_⟩
  · intro h5 h6 h7 h8
    rw [set_video_format_success d ds s fmt hp hm h1 h2 h3 h4 h5 h6 h7 h8]
    simp [h7]
  · intro h5
    exact set_video_format_verification_fails d ds s fmt hp hm h1 h2 h3 h4 h5
  · intro h5 h6 h7
    cases hl : s.live <;>
      simp [set_video_format, start_live, stop_live, get_image_information,
            hp, hm, h1, h2, h3, h4, h5, h6, h7, hl]
  · intro h5 h6 h7 h8
    cases hl : s.live <;>
      simp [set_video_format, start_live, stop_live, get_image_information,
            hp, hm, h1, h2, h3, h4, h5, h6, h7, h8, hl]

/-- Witness for C7: a successful call from the live state (so the makeshift
stop appears in the sequence), and the failing read-back driver. -/
theorem set_video_format_driver_call_order_witness :
    ((set_video_format sampleDriver ⟨true⟩
        { sampleSession with live := true } "Y16 (1024x768)").err = none
    ∧ (set_video_format sampleDriver ⟨true⟩
        { sampleSession with live := true } "Y16 (1024x768)").calls
        = [DrvCall.setVideoFormat "Y16 (1024x768)", DrvCall.removeOverlay,
           DrvCall.stopLive, DrvCall.setFormat Y16_mode, DrvCall.startLive,
           DrvCall.stopLive, DrvCall.getFormat, DrvCall.getImageDescription])
    ∧ (set_video_format badFormatDriver ⟨false⟩ sampleSession
        "Y16 (1024x768)").err = some Err.formatVerificationFailed := by
  have h := set_video_format_driver_call_order sampleDriver ⟨true⟩
    { sampleSession with live := true } "Y16 (1024x768)"
    (by decide) (by decide) rfl rfl rfl rfl
  have hb := set_video_format_driver_call_order badFormatDriver ⟨false⟩
    sampleSession "Y16 (1024x768)" (by decide) (by decide) rfl rfl rfl rfl
  refine ⟨⟨(h.1 rfl rfl rfl rfl).1, ?_⟩, hb.2.1 (by decide)⟩
  rw [(h.1 rfl rfl rfl rfl).2.1]
  decide

/-- Claim C8. Construction enumerates the reported device names and selects
the first that splits into exactly three tokens with first token `DMK` and
second token in the model whitelist, the third token never being inspected;
when no name matches, it fails with the device-not-found UserWarning having
called neither `create_grabber` nor `open_by_name`. -/
theorem init_selects_first_matching_device (d : Driver) (ds : DriverState) :
    (∀ nm, d.deviceNames.find? isDMKx3GP031Name = some nm →
        (initSession d ds).s.name = nm)
    ∧ (d.deviceNames.find? isDMKx3GP031Name = none →
        (initSession d ds).err = some Err.deviceNotFound
        ∧ DrvCall.createGrabber ∉ (initSession d ds).calls
        ∧ DrvCall.openByName ∉ (initSession d ds).calls)
    ∧ (∀ n, isDMKx3GP031Name n = true ↔
        ((pySplit n).length = 3 ∧ (pySplit n).headD "" = "DMK" ∧
          ((pySplit n).getD 1 "" = "33GP031"
            ∨ (pySplit n).getD 1 "" = "23GP031"))) := by
  have hsnd := findCamera_snd d.deviceNames 0
  refine ⟨?_, ?_, ?_⟩
  · intro nm hfind
    rw [← hsnd] at hfind
    simp only [initSession, hfind]
    (repeat' split) <;>
      simp_all [set_video_format_name, set_exposure_name, enable_trigger_name]
  · intro hfind
    rw [← hsnd] at hfind
    simp only [initSession, hfind]
    refine ⟨trivial, ?_, ?_⟩ <;>
    · simp only [Outcome.calls, List.mem_cons]
      rintro (h | h)
      · exact absurd h (by simp)
      · obtain ⟨j, hj⟩ := findCamera_calls d.deviceNames 0 _ h
        simp at hj
  · intro n
    simp [isDMKx3GP031Name, and_assoc]

/-- Witness for C8: the sample driver (whose second device matches) and the
driver with no matching device name. -/
theorem init_selects_first_matching_device_witness :
    (initSession sampleDriver ⟨false⟩).s.name = "DMK 33GP031 12345"
    ∧ (initSession noMatchDriver ⟨false⟩).err = some Err.deviceNotFound
    ∧ DrvCall.createGrabber ∉ (initSession noMatchDriver ⟨false⟩).calls := by
  refine ⟨(init_selects_first_matching_device sampleDriver ⟨false⟩).1
      "DMK 33GP031 12345" (by decide), ?_, ?_⟩
  · exact ((init_selects_first_matching_device noMatchDriver ⟨false⟩).2.1
      (by decide)).1
  · exact ((init_selects_first_matching_device noMatchDriver ⟨false⟩).2.1
      (by decide)).2.1

/-- Claim C9. `snap` always returns None (never a frame), and the copy
helper is only ever invoked with a caller-supplied buffer (a `some`
argument), so its allocate-and-return branch is unreachable from `snap`. -/
theorem snap_returns_no_frame_and_guards_copy_helper (d : Driver)
    (ds : DriverState) (s : Session) (fn : Option String) (t : Option Int)
    (v : Bool) (out : Option Buffer) :
    (snap d ds s fn t v out).ret = none
    ∧ (snap d ds s fn t v out).helperArgs.all Option.isSome = true := by
  cases hl : s.live <;> cases hso : d.startLiveOk <;> cases hsn : d.snapOk <;>
    unfold snap <;>
    simp [start_live, stop_live, hl, hso, hsn] <;>
    (repeat' split) <;> simp_all

/-- Claim C10. Whatever the entry state, a `set_video_format` call that
completes without an exception leaves the session stopped: the live flag is
false on return. -/
theorem set_video_format_ends_stopped (d : Driver) (ds : DriverState)
    (s : Session) (fmt : String)
    (h : (set_video_format d ds s fmt).err = none) :
    (set_video_format d ds s fmt).s.live = false := by
  cases hl : s.live <;> cases hso : d.startLiveOk <;>
    unfold set_video_format at h ⊢ <;>
    simp [start_live, stop_live, get_image_information, hl, hso] at h ⊢ <;>
    (repeat' split at h) <;> simp_all [get_image_information]

/-- Witness for C10: a successful call entered from the live state. -/
theorem set_video_format_ends_stopped_witness :
    (set_video_format sampleDriver ⟨true⟩ { sampleSession with live := true }
        "Y16 (1024x768)").s.live = false :=
  set_video_format_ends_stopped sampleDriver ⟨true⟩
    { sampleSession with live := true } "Y16 (1024x768)" (by decide)
